import Mathlib

/-!
Shallow embedding of the pdfviewer Angular application (AzizSaidani/pdfviewer).

The embedded code is `src/src/app/app.component.ts` (the authoritative
variant), together with the constants from
`src/src/app/constants/app.constants.ts`.  Coordinates are modelled as
rationals (`ℚ`): the source works on JavaScript numbers with `+ - * /`,
`Math.min`, `Math.max` only, so rational arithmetic captures the
computations exactly on rational inputs.

DOM reads (`getBoundingClientRect`, `offsetWidth`, `offsetHeight`) are
environment inputs and are passed as explicit parameters; DOM writes
(listener attachment, pointer capture, CSS classes) have no effect on the
component's data and are dropped.  Mutation of class fields becomes
explicit state passing on `AppState`.
-/

namespace PdfViewer

/-- Kind tag of a placed annotation, the `type` field of
`SignaturePosition` in `models/signature.model.ts`. -/
inductive SigKind
  | signature
  | initial
  deriving DecidableEq, Repr

/-- `SignaturePosition` from `models/signature.model.ts`: a placed
signature or initial with position and size (in the component these are
rendered-pixel coordinates of the current page canvas). -/
structure SignaturePosition where
  id : String
  x : ℚ
  y : ℚ
  width : ℚ
  height : ℚ
  page : Nat
  imageData : String
  type : SigKind
  deriving DecidableEq, Repr

/-- `currentPageData` record of `AppComponent` (canvas field dropped):
rendered width/height in CSS pixels and the nominal render scale. -/
structure PageData where
  width : ℚ
  height : ℚ
  scale : ℚ
  deriving DecidableEq, Repr

/-- Geometry read from the DOM at move time inside `performDrag` /
`performResize`: the `.page-canvas-container` bounding rect origin and its
`offsetWidth` / `offsetHeight`. -/
structure DragEnv where
  rectLeft : ℚ
  rectTop : ℚ
  offsetWidth : ℚ
  offsetHeight : ℚ
  deriving DecidableEq, Repr

/-- The mutable fields of `AppComponent` that the interaction and
navigation logic reads or writes.  `draggedSignature` /
`resizingSignature` are object references in TypeScript; here they are
indices into `signatures`. -/
structure AppState where
  signatures : List SignaturePosition
  draggedSignature : Option Nat
  resizingSignature : Option Nat
  dragOffset : ℚ × ℚ
  resizeOffset : ℚ × ℚ
  isDragging : Bool
  isResizing : Bool
  activePointerId : Option Int
  currentPageData : Option PageData
  currentPageNumber : Nat
  totalPages : Nat
  pdfLoaded : Bool
  currentSignature : Option String
  currentInitial : Option String
  deriving DecidableEq, Repr

/-- Field initializers of `AppComponent` (lines 25-63). -/
def initialAppState : AppState where
  signatures := []
  draggedSignature := none
  resizingSignature := none
  dragOffset := (0, 0)
  resizeOffset := (0, 0)
  isDragging := false
  isResizing := false
  activePointerId := none
  currentPageData := none
  currentPageNumber := 1
  totalPages := 0
  pdfLoaded := false
  currentSignature := none
  currentInitial := none

namespace SIGNATURE_CONSTANTS

/-- `SIGNATURE_CONSTANTS.DEFAULT_WIDTH` in `app.constants.ts`. -/
def DEFAULT_WIDTH : ℚ := 100

/-- `SIGNATURE_CONSTANTS.DEFAULT_HEIGHT` in `app.constants.ts`. -/
def DEFAULT_HEIGHT : ℚ := 50

/-- `SIGNATURE_CONSTANTS.MIN_WIDTH` in `app.constants.ts`. -/
def MIN_WIDTH : ℚ := 50

/-- `SIGNATURE_CONSTANTS.MIN_HEIGHT` in `app.constants.ts`. -/
def MIN_HEIGHT : ℚ := 25

end SIGNATURE_CONSTANTS

/-- `clamp(value, min, max)` of `app.component.ts` lines 636-638:
`Math.max(min, Math.min(max, value))`. -/
def clamp (value minV maxV : ℚ) : ℚ := max minV (min maxV value)

/-- `getPageScale()` of `app.component.ts` lines 268-281 (identical to
`calculatePageScale` in `pdf-render.service.ts`), as a function of
`window.innerWidth`. -/
def getPageScale (innerWidth : ℚ) : ℚ :=
  if innerWidth ≤ 768 then
    let availableWidth := innerWidth * 0.85
    min 1.2 (availableWidth / 595)
  else if 768 < innerWidth ∧ innerWidth ≤ 1024 then
    let availableWidth := innerWidth * 0.9
    min 1.4 (availableWidth / 595)
  else
    min 1.6 (1200 / 595)

/-- `goToNextPage()` of `app.component.ts` lines 284-289 (the re-render it
triggers does not touch the page number). -/
def goToNextPage (s : AppState) : AppState :=
  if s.currentPageNumber < s.totalPages then
    { s with currentPageNumber := s.currentPageNumber + 1 }
  else s

/-- `goToPreviousPage()` of `app.component.ts` lines 291-296. -/
def goToPreviousPage (s : AppState) : AppState :=
  if 1 < s.currentPageNumber then
    { s with currentPageNumber := s.currentPageNumber - 1 }
  else s

/-- The state updates of `loadPDFFromUrl` (lines 149-153) once the
document resolves with `numPages` pages. -/
def loadPDFFromUrl (s : AppState) (numPages : Nat) : AppState :=
  { s with totalPages := numPages, currentPageNumber := 1, signatures := [] }

/-- `addSignature()` of `app.component.ts` lines 299-317.  `newId` stands
for `Date.now().toString()`. -/
def addSignature (s : AppState) (newId : String) : AppState :=
  match s.currentSignature, s.currentPageData with
  | some sigData, some pd =>
    if s.pdfLoaded then
      let signatureWidth : ℚ := 100
      let signatureHeight : ℚ := 50
      let centerX := (pd.width - signatureWidth) / 2
      let centerY := (pd.height - signatureHeight) / 2
      { s with signatures := s.signatures ++
          [{ id := newId, x := centerX, y := centerY,
             width := signatureWidth, height := signatureHeight,
             page := s.currentPageNumber, imageData := sigData,
             type := SigKind.signature }] }
    else s
  | _, _ => s

/-- `addInitial()` of `app.component.ts` lines 320-338. -/
def addInitial (s : AppState) (newId : String) : AppState :=
  match s.currentInitial, s.currentPageData with
  | some iniData, some pd =>
    if s.pdfLoaded then
      let initialWidth : ℚ := 60
      let initialHeight : ℚ := 60
      let centerX := (pd.width - initialWidth) / 2
      let centerY := (pd.height - initialHeight) / 2
      { s with signatures := s.signatures ++
          [{ id := newId, x := centerX, y := centerY,
             width := initialWidth, height := initialHeight,
             page := s.currentPageNumber, imageData := iniData,
             type := SigKind.initial }] }
    else s
  | _, _ => s

/-- `startDrag(signature, event)` of `app.component.ts` lines 372-412.
`idx` is the reference to the signature being grabbed; `pointerId` is
`event.pointerId` (`none` when undefined); `targetRectLeft/Top` is the
bounding rect of the grabbed element.  Listener attachment and pointer
capture are DOM-only and dropped. -/
def startDrag (s : AppState) (idx : Nat) (pointerId : Option Int)
    (clientX clientY targetRectLeft targetRectTop : ℚ) : AppState :=
  let s := { s with isDragging := true, draggedSignature := some idx }
  let s :=
    match pointerId with
    | some p => { s with activePointerId := some p }
    | none => s
  { s with dragOffset := (clientX - targetRectLeft, clientY - targetRectTop) }

/-- `startResize(signature, event)` of `app.component.ts` lines 417-453. -/
def startResize (s : AppState) (idx : Nat) (pointerId : Option Int)
    (clientX clientY targetRectLeft targetRectTop : ℚ) : AppState :=
  let s := { s with isResizing := true, resizingSignature := some idx }
  let s :=
    match pointerId with
    | some p => { s with activePointerId := some p }
    | none => s
  { s with resizeOffset := (clientX - targetRectLeft, clientY - targetRectTop) }

/-- `performDrag(clientX, clientY)` of `app.component.ts` lines 515-542.
The write through the `draggedSignature` reference becomes `List.set` at
the referenced index. -/
def performDrag (s : AppState) (env : DragEnv) (clientX clientY : ℚ) : AppState :=
  match s.draggedSignature, s.currentPageData with
  | some idx, some pd =>
    match s.signatures.get? idx with
    | some sig =>
      let scaleX := env.offsetWidth / pd.width
      let scaleY := env.offsetHeight / pd.height
      let newX := (clientX - env.rectLeft - s.dragOffset.1) / scaleX
      let newY := (clientY - env.rectTop - s.dragOffset.2) / scaleY
      let sig' := { sig with
        x := clamp newX 0 (pd.width - sig.width),
        y := clamp newY 0 (pd.height - sig.height) }
      { s with signatures := s.signatures.set idx sig' }
    | none => s
  | _, _ => s

/-- `performResize(clientX, clientY)` of `app.component.ts` lines 547-572. -/
def performResize (s : AppState) (env : DragEnv) (clientX clientY : ℚ) : AppState :=
  match s.resizingSignature, s.currentPageData with
  | some idx, some pd =>
    match s.signatures.get? idx with
    | some sig =>
      let scaleX := env.offsetWidth / pd.width
      let scaleY := env.offsetHeight / pd.height
      let newWidth := max 50 ((clientX - env.rectLeft - sig.x * scaleX) / scaleX)
      let newHeight := max 25 ((clientY - env.rectTop - sig.y * scaleY) / scaleY)
      let sig' := { sig with
        width := clamp newWidth 50 (pd.width - sig.x),
        height := clamp newHeight 25 (pd.height - sig.y) }
      { s with signatures := s.signatures.set idx sig' }
    | none => s
  | _, _ => s

/-- `handleMove(event)` of `app.component.ts` lines 458-476.  The event
supplies a pointer id and client coordinates; the source reads only the
coordinates (the pointer id is never compared against
`activePointerId`). -/
def handleMove (s : AppState) (pointerId : Option Int) (clientX clientY : ℚ)
    (env : DragEnv) : AppState :=
  if ¬ s.isDragging ∧ ¬ s.isResizing then s
  else if s.isDragging ∧ s.draggedSignature.isSome then
    performDrag s env clientX clientY
  else if s.isResizing ∧ s.resizingSignature.isSome then
    performResize s env clientX clientY
  else s

/-- `handleEnd(event)` of `app.component.ts` lines 481-510: unconditional
cleanup of the interaction state (DOM cleanup dropped). -/
def handleEnd (s : AppState) : AppState :=
  { s with isDragging := false, isResizing := false,
           draggedSignature := none, resizingSignature := none,
           activePointerId := none }

/-- The interaction state is idle: no drag, no resize, no target
references, no recorded pointer. -/
def IsIdle (s : AppState) : Prop :=
  s.isDragging = false ∧ s.isResizing = false ∧
  s.draggedSignature = none ∧ s.resizingSignature = none ∧
  s.activePointerId = none

/-- Arguments passed to `page.drawImage` for one signature in `savePDF()`
(`app.component.ts` lines 694-699). -/
structure DrawImagePlacement where
  x : ℚ
  y : ℚ
  width : ℚ
  height : ℚ
  deriving DecidableEq, Repr

/-- The placement `savePDF()` computes for one signature on a page of
height `pdfHeight`, with `scale = getPageScale()` (lines 694-699):
`x: sig.x / scale, y: pdfHeight - sig.y / scale - sig.height / scale,
width: sig.width / scale, height: sig.height / scale`. -/
def savePDFPlacement (sig : SignaturePosition) (scale pdfHeight : ℚ) :
    DrawImagePlacement where
  x := sig.x / scale
  y := pdfHeight - sig.y / scale - sig.height / scale
  width := sig.width / scale
  height := sig.height / scale

/-- One navigation button press. -/
inductive NavEvent
  | next
  | prev
  deriving DecidableEq, Repr

/-- Dispatch of a navigation button press to the component. -/
def navStep (s : AppState) : NavEvent → AppState
  | NavEvent.next => goToNextPage s
  | NavEvent.prev => goToPreviousPage s

end PdfViewer

namespace PdfViewer

/-! ### Concrete fixtures used by witnesses and counterexamples -/

/-- Container geometry with the rect at the origin and the container
rendered at exactly the page data size (effective scale 1). -/
def env0 : DragEnv where
  rectLeft := 0
  rectTop := 0
  offsetWidth := 595
  offsetHeight := 842

/-- An A4-like page rendered at scale 1: 595 x 842 pixels. -/
def pd0 : PageData where
  width := 595
  height := 842
  scale := 1

/-- A 100x50 signature at (100, 100). -/
def sigA : SignaturePosition where
  id := "A"
  x := 100
  y := 100
  width := 100
  height := 50
  page := 1
  imageData := "imgA"
  type := SigKind.signature

/-- A 100x50 signature at (300, 300). -/
def sigB : SignaturePosition where
  id := "B"
  x := 300
  y := 300
  width := 100
  height := 50
  page := 1
  imageData := "imgB"
  type := SigKind.signature

/-- A 40x30 signature close to the right page edge, at x = 550. -/
def sigC : SignaturePosition where
  id := "C"
  x := 550
  y := 100
  width := 40
  height := 30
  page := 1
  imageData := "imgC"
  type := SigKind.signature

/-- State with an active drag session on `sigA` started by pointer 1 with
grab offset (10, 10). -/
def dragState : AppState :=
  { initialAppState with
      signatures := [sigA]
      draggedSignature := some 0
      dragOffset := (10, 10)
      isDragging := true
      activePointerId := some 1
      currentPageData := some pd0
      pdfLoaded := true }

/-- State with an active resize session on `sigA` started by pointer 1. -/
def resizeState : AppState :=
  { initialAppState with
      signatures := [sigA]
      resizingSignature := some 0
      resizeOffset := (0, 0)
      isResizing := true
      activePointerId := some 1
      currentPageData := some pd0
      pdfLoaded := true }

/-- State with an active resize session on `sigC` (x = 550 on a 595-wide
page). -/
def resizeState3 : AppState :=
  { initialAppState with
      signatures := [sigC]
      resizingSignature := some 0
      resizeOffset := (0, 0)
      isResizing := true
      activePointerId := some 1
      currentPageData := some pd0
      pdfLoaded := true }

/-- Idle state holding two signatures `sigA` and `sigB`. -/
def twoSigState : AppState :=
  { initialAppState with
      signatures := [sigA, sigB]
      currentPageData := some pd0
      pdfLoaded := true }

/-- First drag session: pointer 1 grabs `sigA` (index 0). -/
def c5s1 : AppState := startDrag twoSigState 0 (some 1) 110 110 100 100

/-- Second start while the first session is active: pointer 2 grabs `sigB`
(index 1). -/
def c5s2 : AppState := startDrag c5s1 1 (some 2) 310 310 300 300

/-- Page data for the spec scenario: 595x842 page rendered at 893x1263
pixels (nominal scale 1.5). -/
def pd150 : PageData where
  width := 893
  height := 1263
  scale := 3 / 2

/-- Loaded state on the 893x1263 rendered page with both assets present. -/
def pageState8 : AppState :=
  { initialAppState with
      pdfLoaded := true
      currentSignature := some "imgS"
      currentInitial := some "imgI"
      currentPageData := some pd150 }

/-! ### Helper lemmas -/

/-- The lower bound of `clamp` always holds: the outer `Math.max`. -/
theorem le_clamp (value minV maxV : ℚ) : minV ≤ clamp value minV maxV :=
  le_max_left _ _

/-- The upper bound of `clamp` holds whenever the interval is nonempty. -/
theorem clamp_le_right (value minV maxV : ℚ) (h : minV ≤ maxV) :
    clamp value minV maxV ≤ maxV :=
  max_le h (min_le_left _ _)

/-- A `get?` hit implies the index is in range. -/
theorem get?_lt_length {α : Type} {l : List α} {i : Nat} {a : α}
    (h : l.get? i = some a) : i < l.length := by
  by_contra hn
  rw [List.get?_eq_none.mpr (Nat.le_of_not_lt hn)] at h
  exact Option.noConfusion h

/-- `navStep` never changes `totalPages`. -/
theorem navStep_totalPages (s : AppState) (e : NavEvent) :
    (navStep s e).totalPages = s.totalPages := by
  cases e <;> simp only [navStep, goToNextPage, goToPreviousPage] <;>
    split <;> rfl

/-- One navigation step preserves `1 ≤ currentPageNumber ≤ totalPages`. -/
theorem navStep_bounds (s : AppState) (e : NavEvent)
    (h1 : 1 ≤ s.currentPageNumber) (h2 : s.currentPageNumber ≤ s.totalPages) :
    1 ≤ (navStep s e).currentPageNumber ∧
      (navStep s e).currentPageNumber ≤ (navStep s e).totalPages := by
  cases e
  · simp only [navStep, goToNextPage]
    split
    · rename_i h
      constructor
      · show 1 ≤ s.currentPageNumber + 1
        omega
      · show s.currentPageNumber + 1 ≤ s.totalPages
        omega
    · exact ⟨h1, h2⟩
  · simp only [navStep, goToPreviousPage]
    split
    · rename_i h
      constructor
      · show 1 ≤ s.currentPageNumber - 1
        omega
      · show s.currentPageNumber - 1 ≤ s.totalPages
        omega
    · exact ⟨h1, h2⟩

/-- Folding navigation steps preserves the page-number bounds. -/
theorem nav_fold (evs : List NavEvent) (s : AppState)
    (h1 : 1 ≤ s.currentPageNumber) (h2 : s.currentPageNumber ≤ s.totalPages) :
    1 ≤ (evs.foldl navStep s).currentPageNumber ∧
      (evs.foldl navStep s).currentPageNumber ≤ (evs.foldl navStep s).totalPages ∧
      (evs.foldl navStep s).totalPages = s.totalPages := by
  induction evs generalizing s with
  | nil => exact ⟨h1, h2, rfl⟩
  | cons e evs ih =>
    have hb := navStep_bounds s e h1 h2
    have ht := navStep_totalPages s e
    have hrec := ih (navStep s e) hb.1 hb.2
    simp only [List.foldl_cons]
    exact ⟨hrec.1, hrec.2.1, hrec.2.2.trans ht⟩

end PdfViewer

namespace PdfViewer

/-! ### Claim C1 -/

/-- Claim C1: for every drag update, whatever raw client coordinates are
supplied, the dragged annotation ends with `x` in `[0, pageWidth - width]`
and `y` in `[0, pageHeight - height]`, where the page dimensions are the
ones held in `currentPageData` (stated for an annotation no larger than
the page, so that the target intervals are nonempty).  Because this holds
from an arbitrary pre-move state, the bound is preserved by every drag
move. -/
theorem drag_update_position_clamped
    (s : AppState) (env : DragEnv) (pid : Option Int) (cx cy : ℚ)
    (idx : Nat) (pd : PageData) (sig : SignaturePosition)
    (hd : s.isDragging = true)
    (hds : s.draggedSignature = some idx)
    (hpd : s.currentPageData = some pd)
    (hsig : s.signatures.get? idx = some sig)
    (hw : sig.width ≤ pd.width) (hh : sig.height ≤ pd.height) :
    ∃ sig', (handleMove s pid cx cy env).signatures.get? idx = some sig' ∧
      sig'.width = sig.width ∧ sig'.height = sig.height ∧
      0 ≤ sig'.x ∧ sig'.x ≤ pd.width - sig'.width ∧
      0 ≤ sig'.y ∧ sig'.y ≤ pd.height - sig'.height := by
  have hlen : idx < s.signatures.length := get?_lt_length hsig
  have hm : handleMove s pid cx cy env = performDrag s env cx cy := by
    unfold handleMove
    rw [hd, hds]
    simp
  have hpe : performDrag s env cx cy =
      { s with signatures := (s.signatures.set idx
          { sig with
              x := clamp ((cx - env.rectLeft - s.dragOffset.1) / (env.offsetWidth / pd.width))
                0 (pd.width - sig.width),
              y := clamp ((cy - env.rectTop - s.dragOffset.2) / (env.offsetHeight / pd.height))
                0 (pd.height - sig.height) }) } := by
    unfold performDrag
    rw [hds, hpd]
    simp only [hsig]
  rw [hm, hpe]
  exact ⟨_, List.get?_set_eq_of_lt _ hlen, rfl, rfl, le_clamp _ _ _,
    clamp_le_right _ _ _ (by linarith), le_clamp _ _ _,
    clamp_le_right _ _ _ (by linarith)⟩

/-- Witness for C1: dragging `sigA` towards the far-away client point
(100000, -50000) still lands inside the page bounds. -/
theorem drag_update_position_clamped_witness :
    ∃ sig', (handleMove dragState (some 1) 100000 (-50000) env0).signatures.get? 0 = some sig' ∧
      sig'.width = sigA.width ∧ sig'.height = sigA.height ∧
      0 ≤ sig'.x ∧ sig'.x ≤ pd0.width - sig'.width ∧
      0 ≤ sig'.y ∧ sig'.y ≤ pd0.height - sig'.height :=
  drag_update_position_clamped dragState env0 (some 1) 100000 (-50000) 0 pd0 sigA
    rfl rfl rfl rfl (by norm_num [sigA, pd0]) (by norm_num [sigA, pd0])

/-! ### Claim C2 -/

/-- Claim C2: a resize update never produces a width below
`MIN_WIDTH = 50` or a height below `MIN_HEIGHT = 25`, regardless of the
input coordinates: the outer `Math.max` of `clamp` enforces the floor
unconditionally. -/
theorem resize_update_respects_min_size
    (s : AppState) (env : DragEnv) (pid : Option Int) (cx cy : ℚ)
    (idx : Nat) (pd : PageData) (sig : SignaturePosition)
    (hnd : s.isDragging = false)
    (hr : s.isResizing = true)
    (hrs : s.resizingSignature = some idx)
    (hpd : s.currentPageData = some pd)
    (hsig : s.signatures.get? idx = some sig) :
    ∃ sig', (handleMove s pid cx cy env).signatures.get? idx = some sig' ∧
      SIGNATURE_CONSTANTS.MIN_WIDTH ≤ sig'.width ∧
      SIGNATURE_CONSTANTS.MIN_HEIGHT ≤ sig'.height := by
  have hlen : idx < s.signatures.length := get?_lt_length hsig
  have hm : handleMove s pid cx cy env = performResize s env cx cy := by
    unfold handleMove
    rw [hnd, hr, hrs]
    simp
  have hpe : performResize s env cx cy =
      { s with signatures := (s.signatures.set idx
          { sig with
              width := clamp (max 50 ((cx - env.rectLeft - sig.x * (env.offsetWidth / pd.width)) / (env.offsetWidth / pd.width)))
                50 (pd.width - sig.x),
              height := clamp (max 25 ((cy - env.rectTop - sig.y * (env.offsetHeight / pd.height)) / (env.offsetHeight / pd.height)))
                25 (pd.height - sig.y) }) } := by
    unfold performResize
    rw [hrs, hpd]
    simp only [hsig]
  rw [hm, hpe]
  exact ⟨_, List.get?_set_eq_of_lt _ hlen, le_clamp _ _ _, le_clamp _ _ _⟩

/-- Witness for C2: resizing `sigA` towards client point (-1000, -1000)
still yields width at least 50 and height at least 25. -/
theorem resize_update_respects_min_size_witness :
    ∃ sig', (handleMove resizeState (some 1) (-1000) (-1000) env0).signatures.get? 0 = some sig' ∧
      SIGNATURE_CONSTANTS.MIN_WIDTH ≤ sig'.width ∧
      SIGNATURE_CONSTANTS.MIN_HEIGHT ≤ sig'.height :=
  resize_update_respects_min_size resizeState env0 (some 1) (-1000) (-1000) 0 pd0 sigA
    rfl rfl rfl rfl rfl

end PdfViewer

namespace PdfViewer

/-! ### Claims C3, C4, C5 -/

/-- `performDrag` mutates at most the annotation referenced by
`draggedSignature`: every other index of the signature list is
untouched. -/
theorem performDrag_get?_ne (s : AppState) (env : DragEnv) (cx cy : ℚ)
    (i j : Nat) (hds : s.draggedSignature = some i) (hj : j ≠ i) :
    (performDrag s env cx cy).signatures.get? j = s.signatures.get? j := by
  unfold performDrag
  rw [hds]
  cases hc : s.currentPageData with
  | none => rfl
  | some pd =>
    dsimp only
    cases hg : s.signatures.get? i with
    | none => rfl
    | some sig =>
      dsimp only
      exact List.get?_set_ne _ _ (Ne.symm hj)

/-- Counterexample to claim C3: resizing `sigC` (at x = 550 on a 595-wide
page at effective scale 1) with the pointer at clientX = 750, which
requests width 750 - 550 = 200, yields width 50, not the claimed 45:
the code computes `clamp(newWidth, 50, 595 - 550) =
max(50, min(45, 200)) = 50`, so the MIN_WIDTH floor wins over the
max-extent bound. -/
theorem resize_at_edge_counterexample :
    ((handleMove resizeState3 (some 1) 750 130 env0).signatures.get? 0).map
        SignaturePosition.width = some 50 ∧
      ((handleMove resizeState3 (some 1) 750 130 env0).signatures.get? 0).map
        SignaturePosition.width ≠ some 45 := by
  constructor <;>
    norm_num [handleMove, performResize, resizeState3, env0, pd0, sigC,
      initialAppState, clamp, min_def, max_def]

/-- Amended claim C3: for a resize update on an annotation at x = 550 on a
page of width 595 where the pointer requests width 200, the resulting
width is `MIN_WIDTH = 50`: the minimum-width floor wins over the
max-extent clamp of 45, because `clamp` applies the outer
`Math.max(min, ...)` last. -/
theorem resize_at_edge_min_width_wins :
    ((handleMove resizeState3 (some 1) 750 130 env0).signatures.get? 0).map
      SignaturePosition.width = some SIGNATURE_CONSTANTS.MIN_WIDTH := by
  norm_num [handleMove, performResize, resizeState3, env0, pd0, sigC,
    initialAppState, clamp, min_def, max_def, SIGNATURE_CONSTANTS.MIN_WIDTH]

/-- Claim C4 evaluated at the failing input: the drag session in
`dragState` was started by pointer 1 (recorded in `activePointerId`), yet
a move event carrying pointer id 2 at client point (300, 300) mutates the
dragged annotation from (100, 100) to (290, 290): `handleMove` never
compares the event pointer id against `activePointerId`, so the claimed
stale-pointer rejection does not happen. -/
theorem stale_pointer_move_still_mutates :
    dragState.activePointerId = some 1 ∧
    (dragState.signatures.get? 0).map SignaturePosition.x = some 100 ∧
    (dragState.signatures.get? 0).map SignaturePosition.y = some 100 ∧
    ((handleMove dragState (some 2) 300 300 env0).signatures.get? 0).map
      SignaturePosition.x = some 290 ∧
    ((handleMove dragState (some 2) 300 300 env0).signatures.get? 0).map
      SignaturePosition.y = some 290 := by
  refine ⟨rfl, rfl, rfl, ?_, ?_⟩ <;>
    norm_num [handleMove, performDrag, dragState, env0, pd0, sigA,
      initialAppState, clamp, min_def, max_def]

/-- Counterexample to claim C5: with a drag of `sigA` (index 0) active,
a second `startDrag` on `sigB` (index 1) is not ignored: it retargets the
session (`draggedSignature` becomes index 1), and the following move
mutates `sigB` (x goes from 300 to 390) while `sigA` stays untouched at
x = 100 — the opposite of the claimed first-session-wins policy. -/
theorem second_start_counterexample :
    c5s2.draggedSignature = some 1 ∧
    ((handleMove c5s2 (some 2) 400 400 env0).signatures.get? 1).map
      SignaturePosition.x = some 390 ∧
    ((handleMove c5s2 (some 2) 400 400 env0).signatures.get? 0).map
      SignaturePosition.x = some 100 := by
  refine ⟨rfl, ?_, ?_⟩ <;>
    norm_num [handleMove, performDrag, c5s2, c5s1, startDrag, twoSigState,
      env0, pd0, sigA, sigB, initialAppState, clamp, min_def, max_def]

/-- Amended claim C5: a start event arriving while a session is active is
not ignored; it overwrites the flag and the target of its own mode, so
after a `startResize` during an active drag both a drag flag and a resize
flag are set at once.  Which annotation subsequent move events mutate
follows drag priority in `handleMove`: after a second `startDrag`, moves
touch only the annotation named by the second start, leaving the first
session annotation untouched; after a `startResize` during an active
drag, moves keep touching only the originally dragged annotation, leaving
the annotation named by the `startResize` untouched. -/
theorem second_start_drag_priority
    (s : AppState) (idx : Nat) (pid : Option Int) (cx cy rl rt : ℚ) :
    ((startDrag s idx pid cx cy rl rt).draggedSignature = some idx ∧
     (startDrag s idx pid cx cy rl rt).signatures = s.signatures ∧
     ∀ (env : DragEnv) (pid2 : Option Int) (mx my : ℚ) (j : Nat), j ≠ idx →
       (handleMove (startDrag s idx pid cx cy rl rt) pid2 mx my env).signatures.get? j =
         s.signatures.get? j) ∧
    (∀ i : Nat, s.isDragging = true → s.draggedSignature = some i →
      (startResize s idx pid cx cy rl rt).resizingSignature = some idx ∧
      (startResize s idx pid cx cy rl rt).isResizing = true ∧
      (startResize s idx pid cx cy rl rt).isDragging = true ∧
      (startResize s idx pid cx cy rl rt).draggedSignature = some i ∧
      (startResize s idx pid cx cy rl rt).signatures = s.signatures ∧
      ∀ (env : DragEnv) (pid2 : Option Int) (mx my : ℚ) (j : Nat), j ≠ i →
        (handleMove (startResize s idx pid cx cy rl rt) pid2 mx my env).signatures.get? j =
          s.signatures.get? j) := by
  constructor
  · have hds : (startDrag s idx pid cx cy rl rt).draggedSignature = some idx := by
      cases pid <;> rfl
    have hd : (startDrag s idx pid cx cy rl rt).isDragging = true := by
      cases pid <;> rfl
    have hsigs : (startDrag s idx pid cx cy rl rt).signatures = s.signatures := by
      cases pid <;> rfl
    refine ⟨hds, hsigs, ?_⟩
    intro env pid2 mx my j hj
    have hm : handleMove (startDrag s idx pid cx cy rl rt) pid2 mx my env =
        performDrag (startDrag s idx pid cx cy rl rt) env mx my := by
      unfold handleMove
      rw [hd, hds]
      simp
    rw [hm, performDrag_get?_ne _ env mx my idx j hds hj, hsigs]
  · intro i hdrag hdsome
    have hiD : (startResize s idx pid cx cy rl rt).isDragging = s.isDragging := by
      cases pid <;> rfl
    have hdS : (startResize s idx pid cx cy rl rt).draggedSignature = s.draggedSignature := by
      cases pid <;> rfl
    have hrS : (startResize s idx pid cx cy rl rt).resizingSignature = some idx := by
      cases pid <;> rfl
    have hiR : (startResize s idx pid cx cy rl rt).isResizing = true := by
      cases pid <;> rfl
    have hsg : (startResize s idx pid cx cy rl rt).signatures = s.signatures := by
      cases pid <;> rfl
    have hd' : (startResize s idx pid cx cy rl rt).isDragging = true := by
      rw [hiD, hdrag]
    have hds' : (startResize s idx pid cx cy rl rt).draggedSignature = some i := by
      rw [hdS, hdsome]
    refine ⟨hrS, hiR, hd', hds', hsg, ?_⟩
    intro env pid2 mx my j hj
    have hm : handleMove (startResize s idx pid cx cy rl rt) pid2 mx my env =
        performDrag (startResize s idx pid cx cy rl rt) env mx my := by
      unfold handleMove
      rw [hd', hds']
      simp
    rw [hm, performDrag_get?_ne _ env mx my i j hds' hj, hsg]

/-- Witness for the amended C5, from the active drag of index 0 in
`c5s1`: a second `startDrag` on index 1 retargets the drag and the next
move leaves index 0 unchanged, while a `startResize` on index 1 keeps
the drag on index 0 open (both flags set) and the next move leaves the
resize target index 1 unchanged. -/
theorem second_start_drag_priority_witness :
    (startDrag c5s1 1 (some 2) 310 310 300 300).draggedSignature = some 1 ∧
    (handleMove (startDrag c5s1 1 (some 2) 310 310 300 300) (some 2) 400 400 env0).signatures.get? 0 =
      c5s1.signatures.get? 0 ∧
    (startResize c5s1 1 (some 2) 310 310 300 300).resizingSignature = some 1 ∧
    (startResize c5s1 1 (some 2) 310 310 300 300).isResizing = true ∧
    (startResize c5s1 1 (some 2) 310 310 300 300).isDragging = true ∧
    (startResize c5s1 1 (some 2) 310 310 300 300).draggedSignature = some 0 ∧
    (handleMove (startResize c5s1 1 (some 2) 310 310 300 300) (some 2) 400 400 env0).signatures.get? 1 =
      c5s1.signatures.get? 1 :=
  ⟨(second_start_drag_priority c5s1 1 (some 2) 310 310 300 300).1.1,
   (second_start_drag_priority c5s1 1 (some 2) 310 310 300 300).1.2.2
     env0 (some 2) 400 400 0 (by decide),
   ((second_start_drag_priority c5s1 1 (some 2) 310 310 300 300).2 0 rfl rfl).1,
   ((second_start_drag_priority c5s1 1 (some 2) 310 310 300 300).2 0 rfl rfl).2.1,
   ((second_start_drag_priority c5s1 1 (some 2) 310 310 300 300).2 0 rfl rfl).2.2.1,
   ((second_start_drag_priority c5s1 1 (some 2) 310 310 300 300).2 0 rfl rfl).2.2.2.1,
   ((second_start_drag_priority c5s1 1 (some 2) 310 310 300 300).2 0 rfl rfl).2.2.2.2.2
     env0 (some 2) 400 400 1 (by decide)⟩

end PdfViewer

namespace PdfViewer

/-! ### Claims C6 to C10 -/

/-- Claim C6: at export, the vertical coordinate written for every
annotation equals `pdfHeight - pdfTopY - heightPdf`, where
`pdfTopY = sig.y / scale` and `heightPdf = sig.height / scale` are the
PDF-space top coordinate and height of the annotation; concretely, an
annotation whose PDF-space geometry is (50, 50, 100, 50) on a page of
height 842 (stored values scaled by 1.5) exports with y = 742.  The third
conjunct shows the flip is absent from interactive editing: a drag whose
pointer reaches the top-left of the container stores y = 0, the top-left
screen convention, unflipped. -/
theorem export_y_flip :
    (∀ (sig : SignaturePosition) (scale pdfHeight : ℚ),
      (savePDFPlacement sig scale pdfHeight).y =
        pdfHeight - sig.y / scale - sig.height / scale) ∧
    savePDFPlacement
        { id := "s", x := 75, y := 75, width := 150, height := 75,
          page := 1, imageData := "img", type := SigKind.signature }
        (3 / 2) 842 =
      { x := 50, y := 742, width := 100, height := 50 } ∧
    ((handleMove dragState (some 1) 10 10 env0).signatures.get? 0).map
      SignaturePosition.y = some 0 := by
  refine ⟨fun sig scale pdfHeight => rfl, ?_, ?_⟩
  · norm_num [savePDFPlacement]
  · norm_num [handleMove, performDrag, dragState, env0, pd0, sigA,
      initialAppState, clamp, min_def, max_def]

/-- Claim C7: the render scale is the claimed tiered function of the
viewport width: `min(1.2, 0.85 * w / 595)` for w ≤ 768,
`min(1.4, 0.9 * w / 595)` for 768 < w ≤ 1024, and `min(1.6, 1200 / 595)`
otherwise. -/
theorem render_scale_tiered (w : ℚ) :
    (w ≤ 768 → getPageScale w = min 1.2 (0.85 * w / 595)) ∧
    (768 < w → w ≤ 1024 → getPageScale w = min 1.4 (0.9 * w / 595)) ∧
    (1024 < w → getPageScale w = min 1.6 (1200 / 595)) := by
  refine ⟨fun h => ?_, fun h1 h2 => ?_, fun h => ?_⟩
  · simp only [getPageScale, if_pos h]
    rw [mul_comm]
  · rw [getPageScale, if_neg (not_le.mpr h1), if_pos ⟨h1, h2⟩]
    rw [mul_comm]
  · have h768 : ¬ w ≤ 768 := not_le.mpr (lt_trans (by norm_num) h)
    have htab : ¬ (768 < w ∧ w ≤ 1024) := fun hc => (not_lt.mpr hc.2) h
    rw [getPageScale, if_neg h768, if_neg htab]

/-- Witness for C7: one concrete viewport width per tier. -/
theorem render_scale_tiered_witness :
    getPageScale 600 = min 1.2 (0.85 * 600 / 595) ∧
    getPageScale 900 = min 1.4 (0.9 * 900 / 595) ∧
    getPageScale 1200 = min 1.6 (1200 / 595) :=
  ⟨(render_scale_tiered 600).1 (by norm_num),
   (render_scale_tiered 900).2.1 (by norm_num) (by norm_num),
   (render_scale_tiered 1200).2.2 (by norm_num)⟩

/-- Counterexample to claim C8: on the page rendered at 893 x 1263 pixels
(native 595 x 842), a newly added signature is stored at (396.5, 606.5) —
the center of the rendered-pixel page — and neither that value nor its
PDF-space conversion by the measured scale (x 595 / 893 and x 842 / 1263)
equals the claimed PDF-space position (247.5, 396). -/
theorem add_signature_position_counterexample :
    (addSignature pageState8 "sig1").signatures.map SignaturePosition.x = [396.5] ∧
    (addSignature pageState8 "sig1").signatures.map SignaturePosition.y = [606.5] ∧
    ((396.5 : ℚ) ≠ 247.5) ∧ ((396.5 : ℚ) * (595 / 893) ≠ 247.5) ∧
    ((606.5 : ℚ) ≠ 396) ∧ ((606.5 : ℚ) * (842 / 1263) ≠ 396) := by
  refine ⟨?_, ?_, by norm_num, by norm_num, by norm_num, by norm_num⟩ <;>
    norm_num [addSignature, pageState8, pd150, initialAppState]

/-- Amended claim C8: adding a signature (or initial) appends an
annotation centered in the rendered-pixel coordinates held in
`currentPageData`, with kind-specific default size 100 x 50 (signature)
or 60 x 60 (initial) in those same rendered-pixel units; on the
893 x 1263 geometry the stored position is (396.5, 606.5), not the
PDF-space (247.5, 396). -/
theorem add_centered_default_size
    (s : AppState) (pd : PageData) (sigData iniData newId newId2 : String)
    (hs : s.currentSignature = some sigData)
    (hi : s.currentInitial = some iniData)
    (hpd : s.currentPageData = some pd)
    (hl : s.pdfLoaded = true) :
    (addSignature s newId).signatures = s.signatures ++
      [{ id := newId, x := (pd.width - 100) / 2, y := (pd.height - 50) / 2,
         width := 100, height := 50, page := s.currentPageNumber,
         imageData := sigData, type := SigKind.signature }] ∧
    (addInitial s newId2).signatures = s.signatures ++
      [{ id := newId2, x := (pd.width - 60) / 2, y := (pd.height - 60) / 2,
         width := 60, height := 60, page := s.currentPageNumber,
         imageData := iniData, type := SigKind.initial }] := by
  constructor
  · unfold addSignature
    rw [hs, hpd]
    simp [hl]
  · unfold addInitial
    rw [hi, hpd]
    simp [hl]

/-- Witness for the amended C8 on the 893 x 1263 page. -/
theorem add_centered_default_size_witness :
    (addSignature pageState8 "sig1").signatures = pageState8.signatures ++
      [{ id := "sig1", x := (pd150.width - 100) / 2, y := (pd150.height - 50) / 2,
         width := 100, height := 50, page := pageState8.currentPageNumber,
         imageData := "imgS", type := SigKind.signature }] ∧
    (addInitial pageState8 "ini1").signatures = pageState8.signatures ++
      [{ id := "ini1", x := (pd150.width - 60) / 2, y := (pd150.height - 60) / 2,
         width := 60, height := 60, page := pageState8.currentPageNumber,
         imageData := "imgI", type := SigKind.initial }] :=
  add_centered_default_size pageState8 pd150 "imgS" "imgI" "sig1" "ini1" rfl rfl rfl rfl

/-- Claim C9: `handleEnd` is idempotent and total: after one call the
interaction state is Idle (no drag, no resize, no target annotation, no
active pointer id), a second call is a no-op that keeps the state Idle,
and the annotation list is never altered.  This also covers calling it
with no active session, since the statement holds for every state. -/
theorem end_idempotent_idle (s : AppState) :
    IsIdle (handleEnd s) ∧ handleEnd (handleEnd s) = handleEnd s ∧
    (handleEnd s).signatures = s.signatures :=
  ⟨⟨rfl, rfl, rfl, rfl, rfl⟩, rfl, rfl⟩

/-- Claim C10: starting from the post-load state
(`currentPageNumber = 1`, `totalPages = numPages ≥ 1`), every sequence of
`goToNextPage` / `goToPreviousPage` presses keeps the page number within
`[1, numPages]`: next is a no-op on the last page and previous is a no-op
on the first. -/
theorem navigation_stays_in_bounds
    (s0 : AppState) (numPages : Nat) (evs : List NavEvent) (h : 1 ≤ numPages) :
    1 ≤ (evs.foldl navStep (loadPDFFromUrl s0 numPages)).currentPageNumber ∧
      (evs.foldl navStep (loadPDFFromUrl s0 numPages)).currentPageNumber ≤ numPages := by
  have h1 : 1 ≤ (loadPDFFromUrl s0 numPages).currentPageNumber := le_refl 1
  have h2 : (loadPDFFromUrl s0 numPages).currentPageNumber ≤
      (loadPDFFromUrl s0 numPages).totalPages := h
  have hf := nav_fold evs (loadPDFFromUrl s0 numPages) h1 h2
  have ht : (loadPDFFromUrl s0 numPages).totalPages = numPages := rfl
  refine ⟨hf.1, ?_⟩
  have := hf.2.2.trans ht
  omega

/-- Witness for C10: a three-page document with a concrete press
sequence stays within bounds. -/
theorem navigation_stays_in_bounds_witness :
    1 ≤ (([NavEvent.next, NavEvent.next, NavEvent.prev, NavEvent.prev]).foldl
        navStep (loadPDFFromUrl initialAppState 3)).currentPageNumber ∧
      (([NavEvent.next, NavEvent.next, NavEvent.prev, NavEvent.prev]).foldl
        navStep (loadPDFFromUrl initialAppState 3)).currentPageNumber ≤ 3 :=
  navigation_stays_in_bounds initialAppState 3
    [NavEvent.next, NavEvent.next, NavEvent.prev, NavEvent.prev] (by decide)

end PdfViewer
